import Mathlib

/-!
Verification of `src/research/crawl_references.py` (v1.4.1 reference crawler).

This file shallowly embeds the crawler's data model and core operations:
the Python-truthiness helpers, `normalize_doi`, `is_low_info_title` (with its
two regular expressions translated into executable matchers),
`passes_threshold_from_oa_json`, `WorkNode.from_openalex_json`, `safe_get`,
`_rate_limit`, the S2-to-OpenAlex mapping resolver
`map_s2_ref_to_openalex` with its persistent mapping cache, and the two crawl
engines `crawl_references_openalex` and `crawl_references_via_s2`.

Modelling conventions:
  * JSON records are structures of `Option` fields; an absent or JSON-null
    field is `none`.
  * Python `or`-defaulting is modelled by explicit truthiness helpers
    (`pyOrStr`, `pyIntOrZero`, ...) that mirror falsiness of `None`, `""`,
    `0` and `False`.
  * Network access is a pure function parameter (`catalog`, `OAQueryApi`);
    `none`/failure models a raised request exception. The disk-backed raw
    record cache is read-through over a fixed pure catalog, hence it is
    observationally the catalog itself and is not materialised.
  * The per-layer thread pool is sequentialised in submission order; the
    properties proved (counts, key sets, enqueue multiplicities) are
    schedule-independent for the inputs considered.
  * Wall-clock time (for the rate limiter) is an explicit rational-number
    clock; `time.sleep(w)` advances it by `w` plus a nonnegative slack.
-/

/-! ## String helpers (Python string operations) -/

/-- `s.split("/")[-1]`: the substring after the last `/` (the whole string
when there is no `/`). -/
def lastSegSlash (s : String) : String :=
  String.mk ((s.data.reverse.takeWhile (fun c => c ≠ '/')).reverse)

/-- `s.startswith(p)`. -/
def pyStartsWith (s p : String) : Bool :=
  p.data.isPrefixOf s.data

/-- `s.lower()` (ASCII). -/
def lowerStr (s : String) : String :=
  String.mk (s.data.map Char.toLower)

/-- `s.strip()`. -/
def trimStr (s : String) : String :=
  String.mk (((s.data.dropWhile Char.isWhitespace).reverse.dropWhile Char.isWhitespace).reverse)

/-- `s[:n]`. -/
def takeStr (s : String) (n : Nat) : String :=
  String.mk (s.data.take n)

/-- `s[n:]`. -/
def dropStr (s : String) (n : Nat) : String :=
  String.mk (s.data.drop n)

/-! ## Python truthiness helpers -/

/-- Truthiness of an optional string: `None` and `""` are falsy. -/
def truthyS : Option String → Bool
  | none => false
  | some s => decide (s ≠ "")

/-- `a or b` for optional strings. -/
def pyOrStr (a b : Option String) : Option String :=
  if truthyS a then a else b

/-- `a or None` for optional strings (turns `""` into `None`). -/
def pyStrOrNone (a : Option String) : Option String :=
  if truthyS a then a else none

/-- `a if a is not None else ""`; in the source this appears as
`(x or "")` where the subsequent use only needs the `None` case defaulted. -/
def pyStrOrEmpty (a : Option String) : String :=
  match a with
  | none => ""
  | some s => s

/-- `a or None` for optional ints (`0` is falsy). -/
def pyIntOrNone : Option Int → Option Int
  | none => none
  | some n => if n = 0 then none else some n

/-- `a or 0` for optional ints. -/
def pyIntOrZero : Option Int → Int
  | none => 0
  | some n => if n = 0 then 0 else n

/-- `a or False` for optional booleans. -/
def pyBoolOrFalse : Option Bool → Bool
  | none => false
  | some b => if b then true else false

/-! ## Data model -/

/-- An OpenAlex work record (the JSON fields the crawler reads).
`authorships` models the `authorships` array: each entry is `none` when the
authorship's `author` sub-object is absent or empty (falsy), otherwise
`some` of the author's optional `display_name`. -/
structure OAWork where
  id : Option String
  doi : Option String
  title : Option String
  publication_year : Option Int
  host_venue_display_name : Option String
  type : Option String
  authorships : List (Option (Option String))
  cited_by_count : Option Int
  is_retracted : Option Bool
  referenced_works : List String
deriving DecidableEq

/-- The `WorkNode` dataclass. -/
structure WorkNode where
  openalex_id : Option String
  doi : Option String
  title : Option String
  publication_year : Option Int
  host_venue : Option String
  type : Option String
  authors : Option String
  cited_by_count : Option Int
  is_retracted : Option Bool
  source : Option String
  s2_paper_id : Option String
deriving DecidableEq

/-- `", ".join(names)`. -/
def joinComma : List String → String
  | [] => ""
  | [s] => s
  | s :: rest => s ++ ", " ++ joinComma rest

/-- `WorkNode.from_openalex_json`. -/
def WorkNode.from_openalex_json (j : OAWork) (source : String) : WorkNode :=
  let names := (j.authorships.filterMap id).map (fun dn => dn.getD "")
  { openalex_id :=
      match j.id with
      | none => none
      | some s => if s = "" then none else some (lastSegSlash s)
    doi := pyStrOrNone j.doi
    title := pyStrOrNone j.title
    publication_year := pyIntOrNone j.publication_year
    host_venue := pyStrOrNone j.host_venue_display_name
    type := pyStrOrNone j.type
    authors := pyStrOrNone (some (joinComma names))
    cited_by_count := some (pyIntOrZero j.cited_by_count)
    is_retracted := some (pyBoolOrFalse j.is_retracted)
    source := some source
    s2_paper_id := none }

/-! ## Threshold policy -/

/-- `passes_threshold_from_oa_json`: unknown citation count passes iff
strict mode is off; a known count passes iff it reaches `min_citations`. -/
def passes_threshold_from_oa_json (work_json : OAWork) (min_citations : Int) (strict : Bool) : Bool :=
  match work_json.cited_by_count with
  | none => !strict
  | some c => decide (c ≥ min_citations)

/-- C7: the threshold predicate holds iff the citation count is known and at
least `min_citations`, or the count is unknown and strict mode is off; an
unknown count fails exactly when strict mode is on, independent of
`min_citations`. -/
theorem c7_threshold (w : OAWork) (m : Int) (s : Bool) :
    (passes_threshold_from_oa_json w m s = true ↔
      (∃ c, w.cited_by_count = some c ∧ m ≤ c) ∨ (w.cited_by_count = none ∧ s = false)) ∧
    passes_threshold_from_oa_json { w with cited_by_count := none } m s = !s := by
  constructor
  · unfold passes_threshold_from_oa_json
    cases hc : w.cited_by_count with
    | none => cases s <;> simp
    | some c => simp [ge_iff_le]
  · rfl

/-- C10: every node built from an OpenAlex record carries a non-`none`
citation count and retraction flag; an absent or zero `cited_by_count` is
stored as the integer `0`, an absent `is_retracted` as `false`, and the node
built from a record with an unknown count is equal to the node built from
the same record with count `0`, although the threshold policy treats the
unknown count as passing (here with `min_citations = 10`, strict off). -/
theorem c10_node_defaults (j : OAWork) (src : String) :
    ((WorkNode.from_openalex_json j src).cited_by_count).isSome = true ∧
    ((WorkNode.from_openalex_json j src).is_retracted).isSome = true ∧
    (WorkNode.from_openalex_json { j with cited_by_count := none } src).cited_by_count = some 0 ∧
    (WorkNode.from_openalex_json { j with cited_by_count := some 0 } src).cited_by_count = some 0 ∧
    (WorkNode.from_openalex_json { j with is_retracted := none } src).is_retracted = some false ∧
    WorkNode.from_openalex_json { j with cited_by_count := none } src =
      WorkNode.from_openalex_json { j with cited_by_count := some 0 } src ∧
    passes_threshold_from_oa_json { j with cited_by_count := none } 10 false = true :=
  ⟨rfl, rfl, rfl, rfl, rfl, rfl, rfl⟩

/-! ## Low-information title filter

`is_low_info_title` uses two compiled regular expressions; both are
translated below into executable matchers.  The generic-title pattern is
case-insensitive and word-boundary anchored; it is modelled by a small
nondeterministic matcher (each piece returns the list of possible
remainders) run at every start position of the lowered title, with `\b`
checked on both sides. -/

/-- A regex word character (`\w`, ASCII): letters, digits, underscore. -/
def isWordChar (c : Char) : Bool :=
  c.isAlphanum || c = '_'

/-- Match a literal string; returns the remainder on success. -/
def mLit (lit : String) (cs : List Char) : List (List Char) :=
  if lit.data.isPrefixOf cs then [cs.drop lit.length] else []

/-- `X?`: optionally apply a matcher. -/
def mOpt (m : List Char → List (List Char)) (cs : List Char) : List (List Char) :=
  cs :: m cs

/-- Alternation of two matchers. -/
def mAlt (m1 m2 : List Char → List (List Char)) (cs : List Char) : List (List Char) :=
  m1 cs ++ m2 cs

/-- `\s*`: consume any number of leading whitespace characters (all splits). -/
def mWS : List Char → List (List Char)
  | [] => [[]]
  | c :: rest => (c :: rest) :: (if c.isWhitespace then mWS rest else [])

/-- Sequence a list of matchers. -/
def mChain : List (List Char → List (List Char)) → List Char → List (List Char)
  | [], cs => [cs]
  | m :: ms, cs => (m cs).flatMap (mChain ms)

/-- `[..]`: match one character from a set. -/
def mCharSet (set : String) (cs : List Char) : List (List Char) :=
  match cs with
  | [] => []
  | c :: rest => if set.data.contains c then [rest] else []

/-- `\.?` -/
def pDot : List Char → List (List Char) :=
  mOpt (mLit ".")

/-- `phys\.?\s*rev\.?(?:\s*lett\.?)?` -/
def altPhysRev : List Char → List (List Char) :=
  mChain [mLit "phys", pDot, mWS, mLit "rev", pDot, mOpt (mChain [mWS, mLit "lett", pDot])]

/-- `phys\.?\s*lett\.?(?:\s*[ab])?` -/
def altPhysLett : List Char → List (List Char) :=
  mChain [mLit "phys", pDot, mWS, mLit "lett", pDot, mOpt (mChain [mWS, mCharSet "ab"])]

/-- `mod\.?\s*phys\.?\s*lett\.?` -/
def altModPhysLett : List Char → List (List Char) :=
  mChain [mLit "mod", pDot, mWS, mLit "phys", pDot, mWS, mLit "lett", pDot]

/-- `ann\.?\s*phys\.?` -/
def altAnnPhys : List Char → List (List Char) :=
  mChain [mLit "ann", pDot, mWS, mLit "phys", pDot]

/-- `nucl\.?\s*phys\.?(?:\s*[ab])?` -/
def altNuclPhys : List Char → List (List Char) :=
  mChain [mLit "nucl", pDot, mWS, mLit "phys", pDot, mOpt (mChain [mWS, mCharSet "ab"])]

/-- `class\.?\s*quant\.?\s*grav\.?` -/
def altClassQuantGrav : List Char → List (List Char) :=
  mChain [mLit "class", pDot, mWS, mLit "quant", pDot, mWS, mLit "grav", pDot]

/-- `(?:commun|comm)\.?\s*math\.?\s*phys\.?` -/
def altCommMathPhys : List Char → List (List Char) :=
  mChain [mAlt (mLit "commun") (mLit "comm"), pDot, mWS, mLit "math", pDot, mWS, mLit "phys", pDot]

/-- `int\.?\s*j\.?` -/
def altIntJ : List Char → List (List Char) :=
  mChain [mLit "int", pDot, mWS, mLit "j", pDot]

/-- `j\.?\s*phys\.?` -/
def altJPhys : List Char → List (List Char) :=
  mChain [mLit "j", pDot, mWS, mLit "phys", pDot]

/-- All alternatives of `GENERIC_TITLE_PAT` (input already lowered). -/
def genericAlts (cs : List Char) : List (List Char) :=
  mLit "preprint" cs ++ mLit "proceedings" cs ++ mLit "proc." cs ++
  altPhysRev cs ++ altPhysLett cs ++ altModPhysLett cs ++ altAnnPhys cs ++
  altNuclPhys cs ++ altClassQuantGrav cs ++ altCommMathPhys cs ++
  altIntJ cs ++ mLit "jhep" cs ++ altJPhys cs

/-- Closing `\b` of `GENERIC_TITLE_PAT`: the word-ness of the last matched
character must differ from that of the next character (string end counts as
non-word). -/
def endBoundaryOk (suf rem : List Char) : Bool :=
  let matched := suf.take (suf.length - rem.length)
  let lastW :=
    match matched.getLast? with
    | none => false
    | some c => isWordChar c
  let nextW :=
    match rem with
    | [] => false
    | c :: _ => isWordChar c
  lastW != nextW

/-- Does some alternative match at this position, with both `\b` anchors
satisfied?  Every alternative starts with a word character, so the opening
`\b` holds iff the previous character is not a word character. -/
def genericMatchAt (prevW : Bool) (suf : List Char) : Bool :=
  !prevW && (genericAlts suf).any (fun rem => endBoundaryOk suf rem)

def genericSearchAux : Bool → List Char → Bool
  | _, [] => false
  | prevW, c :: rest =>
    genericMatchAt prevW (c :: rest) || genericSearchAux (isWordChar c) rest

/-- `GENERIC_TITLE_PAT.search(t)` on the lowered title characters. -/
def genericSearch (cs : List Char) : Bool :=
  genericSearchAux false cs

/-- `ARXIV_ID_PAT.match(t.strip())`:
`(?i)^\s*(?:hep-(?:th|ph)|gr-qc|astro-ph|cond-mat)/\d{7}\s*$`. -/
def arxivIdMatch (s : String) : Bool :=
  let cs := (lowerStr (trimStr s)).data
  (["hep-th", "hep-ph", "gr-qc", "astro-ph", "cond-mat"].any (fun p =>
    p.data.isPrefixOf cs &&
      (match cs.drop p.length with
       | '/' :: ds => decide (ds.length = 7) && ds.all Char.isDigit
       | _ => false)))

/-- `re.findall(r"\w+", t)` length: number of maximal word-character runs. -/
def countWordRunsAux : List Char → Bool → Nat
  | [], _ => 0
  | c :: rest, inRun =>
    if isWordChar c then (if inRun then 0 else 1) + countWordRunsAux rest true
    else countWordRunsAux rest false

def countWordRuns (s : String) : Nat :=
  countWordRunsAux s.data false

/-- `is_low_info_title`. -/
def is_low_info_title (t : Option String) : Bool :=
  match t with
  | none => true
  | some s =>
    if s = "" then true
    else if arxivIdMatch s then true
    else
      let words := countWordRuns s
      if genericSearch (lowerStr s).data && decide (words ≤ 4) then true
      else decide (words < 3)

/-! ## DOI normalisation and the mapping cache -/

/-- `normalize_doi`. -/
def normalize_doi : Option String → Option String
  | none => none
  | some doi₀ =>
    if doi₀ = "" then none
    else
      let d := trimStr doi₀
      if pyStartsWith (lowerStr d) "https://doi.org/" then some (dropStr d 16) else some d

/-- The persistent S2-to-OpenAlex mapping cache: composite key to resolved
primary id or an explicit null mapping (`none`). -/
def MapCache : Type := List (String × Option String)

instance : DecidableEq MapCache := by
  unfold MapCache
  infer_instance

/-- Association-list lookup (Python dict access without defaulting). -/
def alook {β : Type} : List (String × β) → String → Option β
  | [], _ => none
  | (k', v) :: rest, k => if k' = k then some v else alook rest k

/-- `_map_cache_get`: `dict.get(key)` conflates a stored null mapping with a
missing entry — both come back as `none`. -/
def map_cache_get (c : MapCache) (key : String) : Option String :=
  (alook c key).join

/-- `_map_cache_set`: store (insert or overwrite) the mapping for a key. -/
def map_cache_set : MapCache → String → Option String → MapCache
  | [], k, v => [(k, v)]
  | (k', v') :: rest, k, v =>
    if k' = k then (k, v) :: rest else (k', v') :: map_cache_set rest k v

/-! ## The S2-to-OpenAlex resolver -/

/-- A Semantic Scholar reference record (the fields the resolver reads):
`paperId`, `title`, `year` and the `externalIds` sub-object's `DOI`,
`ArXiv` and `CorpusId`. -/
structure S2Ref where
  paperId : Option String
  title : Option String
  year : Option Int
  doi : Option String
  arxiv : Option String
  corpusId : Option String
deriving DecidableEq

/-- The OpenAlex query endpoints used by the resolver: an exact DOI filter
lookup and a free-text search (used for both the arXiv-id tier and the
title tier).  `none` models a raised network exception; `some results`
carries the result records' `id` URLs. -/
structure OAQueryApi where
  byDoiFilter : String → Option (List String)
  searchWorks : String → Option (List String)

/-- Result of one resolution: the primary-id-or-null outcome, the updated
mapping cache, and how many network lookups were issued. -/
structure MapOut where
  result : Option String
  cache : MapCache
  calls : Nat
deriving DecidableEq

/-- `map_s2_ref_to_openalex`.  Tier order is exactly the source's: DOI
filter lookup, arXiv-id search, secondary-id cache lookup, title search; a
tier that runs its network lookup returns its outcome (null included)
directly. -/
def map_s2_ref_to_openalex (api : OAQueryApi) (ref : S2Ref) (cache0 : MapCache) : MapOut :=
  let doi := normalize_doi ref.doi
  let arx := ref.arxiv
  let title := ref.title
  let s2id := pyOrStr ref.paperId ref.corpusId
  if truthyS doi then
    let d := pyStrOrEmpty doi
    let key := "DOI:" ++ d
    match map_cache_get cache0 key with
    | some v => ⟨some v, cache0, 0⟩
    | none =>
      match api.byDoiFilter d with
      | some res => ⟨(res.head?).map lastSegSlash, map_cache_set cache0 key ((res.head?).map lastSegSlash), 1⟩
      | none => ⟨none, map_cache_set cache0 key none, 1⟩
  else if truthyS arx then
    let a := pyStrOrEmpty arx
    let key := "ARXIV:" ++ a
    match map_cache_get cache0 key with
    | some v => ⟨some v, cache0, 0⟩
    | none =>
      match api.searchWorks a with
      | some res => ⟨(res.head?).map lastSegSlash, map_cache_set cache0 key ((res.head?).map lastSegSlash), 1⟩
      | none => ⟨none, map_cache_set cache0 key none, 1⟩
  else
    let s2hit :=
      if truthyS s2id then map_cache_get cache0 ("S2:" ++ pyStrOrEmpty s2id) else none
    match s2hit with
    | some v => ⟨some v, cache0, 0⟩
    | none =>
      if truthyS title && !(is_low_info_title title) then
        let tkey := "TITLE:" ++ takeStr (lowerStr (trimStr (pyStrOrEmpty title))) 200
        match map_cache_get cache0 tkey with
        | some v => ⟨some v, cache0, 0⟩
        | none =>
          match api.searchWorks (pyStrOrEmpty title) with
          | some res =>
            let out := (res.head?).map lastSegSlash
            let c1 := map_cache_set cache0 tkey out
            ⟨out, if truthyS s2id then map_cache_set c1 ("S2:" ++ pyStrOrEmpty s2id) out else c1, 1⟩
          | none =>
            let c1 := map_cache_set cache0 tkey none
            ⟨none, if truthyS s2id then map_cache_set c1 ("S2:" ++ pyStrOrEmpty s2id) none else c1, 1⟩
      else
        ⟨none, if truthyS s2id then map_cache_set cache0 ("S2:" ++ pyStrOrEmpty s2id) none else cache0, 0⟩

/-! ## The HTTP helper `safe_get`

The model tracks, per call: the outcome eventually returned or raised, the
number of GET attempts issued, and the sequence of back-off sleeps (in
seconds, as rationals).  `responses n` is the outcome of the `n`-th attempt
(`.status c` a response with that status code, `.connError` a raised
`requests.RequestException`).  Rate limiting and metrics recording are
orthogonal instrumentation and are modelled separately. -/

inductive HttpOutcome where
  | status (code : Nat)
  | connError
deriving DecidableEq

inductive FetchResult where
  | ok
  | httpError (code : Nat)
  | connFailure
  | unknownError
deriving DecidableEq

structure SafeGetTrace where
  result : FetchResult
  attempts : Nat
  sleeps : List ℚ
deriving DecidableEq

/-- The status codes retried with jittered backoff (`resp.status_code in
(429, 503, 502, 504)`). -/
def retryableStatus (c : Nat) : Bool :=
  c = 429 || c = 503 || c = 502 || c = 504

/-- The `for attempt in range(retries)` loop of `safe_get`: `attempt` is the
current index, `remaining` the attempts left, `lastErr` the value of
`last_err`.  When the loop ends, `last_err` is raised (or the fallback
"Unknown network error" if it was never set). -/
def safe_get_loop (responses : Nat → HttpOutcome) (backoff : ℚ) :
    Nat → Nat → FetchResult → SafeGetTrace
  | _, 0, lastErr => ⟨lastErr, 0, []⟩
  | attempt, remaining + 1, lastErr =>
    match responses attempt with
    | .status c =>
      if c = 200 then ⟨.ok, 1, []⟩
      else if retryableStatus c then
        let rest := safe_get_loop responses backoff (attempt + 1) remaining lastErr
        ⟨rest.result, rest.attempts + 1, (backoff ^ attempt + 1/2) :: rest.sleeps⟩
      else
        let rest := safe_get_loop responses backoff (attempt + 1) remaining (.httpError c)
        ⟨rest.result, rest.attempts + 1, (backoff ^ attempt) :: rest.sleeps⟩
    | .connError =>
      let rest := safe_get_loop responses backoff (attempt + 1) remaining .connFailure
      ⟨rest.result, rest.attempts + 1, (backoff ^ attempt) :: rest.sleeps⟩

/-- `safe_get` (default `retries=4`, `backoff=1.5`). -/
def safe_get (responses : Nat → HttpOutcome) (retries : Nat) (backoff : ℚ) : SafeGetTrace :=
  safe_get_loop responses backoff 0 retries .unknownError

/-! ## The rate limiter `_rate_limit` -/

structure RLResult where
  waited : ℚ
  last' : ℚ
deriving DecidableEq

/-- `_rate_limit`: `last` is `_LAST_CALL_TS`, `now` the `perf_counter`
reading on entry, `sleepSlack ≥ 0` the extra time by which `time.sleep`
overshoots; the result is the time waited and the updated timestamp. -/
def rate_limit (qps : ℚ) (bucket : Option String) (last now sleepSlack : ℚ) : RLResult :=
  if bucket ≠ some "openalex" then ⟨0, last⟩
  else
    let wait := max 0 (1 / max qps (1/10) - (now - last))
    if 0 < wait then ⟨wait, now + wait + sleepSlack⟩ else ⟨wait, now⟩

/-- C9: for the `openalex` bucket the updated last-permitted-call timestamp
is at least `1/max(QPS, 0.1)` seconds after the previous one (so consecutive
permitted calls are separated by at least that interval), the wait is
bounded by that same interval (throttling always resolves), and a throttle
call for any other bucket returns immediately with no wait and unchanged
state. -/
theorem c9_rate_limit (qps last now slack : ℚ) (h1 : last ≤ now) (h2 : 0 ≤ slack) :
    1 / max qps (1/10) ≤ (rate_limit qps (some "openalex") last now slack).last' - last ∧
    (rate_limit qps (some "openalex") last now slack).waited ≤ 1 / max qps (1/10) ∧
    ∀ b : Option String, b ≠ some "openalex" → rate_limit qps b last now slack = ⟨0, last⟩ := by
  have hm : (0 : ℚ) < max qps (1/10) := lt_of_lt_of_le (by norm_num) (le_max_right _ _)
  have hI : (0 : ℚ) < 1 / max qps (1/10) := by positivity
  refine ⟨?_, ?_, ?_⟩
  · unfold rate_limit
    rw [if_neg (by simp)]
    by_cases hw : 0 < max 0 (1 / max qps (1/10) - (now - last))
    · rw [if_pos hw]
      have hx : 1 / max qps (1/10) - (now - last) ≤ max 0 (1 / max qps (1/10) - (now - last)) :=
        le_max_right _ _
      show 1 / max qps (1/10) ≤ now + max 0 (1 / max qps (1/10) - (now - last)) + slack - last
      linarith
    · rw [if_neg hw]
      have hy : 1 / max qps (1/10) - (now - last) ≤ 0 :=
        le_trans (le_max_right 0 _) (not_lt.mp hw)
      show 1 / max qps (1/10) ≤ now - last
      linarith
  · unfold rate_limit
    rw [if_neg (by simp)]
    have hub : max 0 (1 / max qps (1/10) - (now - last)) ≤ 1 / max qps (1/10) :=
      max_le hI.le (by linarith)
    by_cases hw : 0 < max 0 (1 / max qps (1/10) - (now - last))
    · rw [if_pos hw]
      exact hub
    · rw [if_neg hw]
      exact hub
  · intro b hb
    unfold rate_limit
    rw [if_pos hb]

/-- C9 witness: the theorem applied at `qps = 3`, `last = now = 0`,
`slack = 0`. -/
theorem c9_witness :
    (0 : ℚ) ≤ 0 ∧
    1 / max 3 (1/10) ≤ (rate_limit 3 (some "openalex") 0 0 0).last' - 0 :=
  ⟨le_refl 0, (c9_rate_limit 3 0 0 0 (le_refl 0) (le_refl 0)).1⟩


/-! ## C3: retry behaviour of `safe_get` -/

/-- The sleep `safe_get` performs after an unsuccessful attempt `a` with
outcome `o` (only retryable statuses get the fixed `+0.5` jitter). -/
def sleepAfter (o : HttpOutcome) (backoff : ℚ) (a : Nat) : ℚ :=
  match o with
  | .status c => if retryableStatus c then backoff ^ a + 1/2 else backoff ^ a
  | .connError => backoff ^ a

/-- The value of `last_err` after one unsuccessful attempt with outcome `o`
(a retryable status leaves `last_err` untouched). -/
def errAfter (o : HttpOutcome) (lastErr : FetchResult) : FetchResult :=
  match o with
  | .status c => if retryableStatus c then lastErr else .httpError c
  | .connError => .connFailure

/-- Shifting a `List.range` map by one: used to peel one attempt off the
`safe_get` loop. -/
theorem map_range_shift {β : Type} (g : Nat → β) (m a : Nat) :
    (List.range (m + 1)).map (fun i => g (a + i)) =
      g a :: (List.range m).map (fun i => g (a + 1 + i)) := by
  rw [List.range_succ_eq_map, List.map_cons, List.map_map]
  congr 1
  refine List.map_congr_left ?_
  intro i _
  show g (a + (i + 1)) = g (a + 1 + i)
  congr 1
  omega

/-- Characterisation of the `safe_get` loop when every attempt has the same
unsuccessful outcome `o`: all remaining attempts are used, each followed by
its backoff sleep, and the error finally raised is `last_err` as updated by
the attempts. -/
theorem safe_get_loop_const (o : HttpOutcome) (backoff : ℚ) (hno : o ≠ .status 200) :
    ∀ (n attempt : Nat) (lastErr : FetchResult),
      safe_get_loop (fun _ => o) backoff attempt n lastErr =
        ⟨if n = 0 then lastErr else errAfter o lastErr, n,
          (List.range n).map (fun i => sleepAfter o backoff (attempt + i))⟩ := by
  intro n
  induction n with
  | zero =>
    intro attempt lastErr
    rfl
  | succ m ih =>
    intro attempt lastErr
    have hm1 : m + 1 ≠ 0 := Nat.succ_ne_zero m
    cases o with
    | connError =>
      rw [safe_get_loop]
      dsimp only
      rw [ih (attempt + 1) .connFailure]
      have hres : (if m = 0 then FetchResult.connFailure
          else errAfter .connError .connFailure) = FetchResult.connFailure := by
        cases m <;> rfl
      rw [hres, map_range_shift (sleepAfter .connError backoff) m attempt, if_neg hm1]
      rfl
    | status c =>
      have hc : c ≠ 200 := fun h => hno (by rw [h])
      rw [safe_get_loop]
      dsimp only
      rw [if_neg hc]
      rw [map_range_shift (sleepAfter (.status c) backoff) m attempt, if_neg hm1]
      by_cases hr : retryableStatus c = true
      · rw [if_pos hr]
        rw [ih (attempt + 1) lastErr]
        have herr : errAfter (.status c) lastErr = lastErr := by
          simp only [errAfter]
          rw [if_pos hr]
        have hres : (if m = 0 then lastErr else errAfter (.status c) lastErr) = lastErr := by
          rw [herr, ite_self]
        have hsleep : ∀ a, sleepAfter (.status c) backoff a = backoff ^ a + 1/2 := by
          intro a
          simp only [sleepAfter]
          rw [if_pos hr]
        rw [hres, herr]
        simp only [hsleep]
      · rw [if_neg hr]
        rw [ih (attempt + 1) (.httpError c)]
        have herr : errAfter (.status c) lastErr = .httpError c := by
          simp only [errAfter]
          rw [if_neg hr]
        have herr2 : errAfter (.status c) (.httpError c) = .httpError c := by
          simp only [errAfter]
          exact ite_self _
        have hres : (if m = 0 then FetchResult.httpError c
            else errAfter (.status c) (.httpError c)) = FetchResult.httpError c := by
          rw [herr2, ite_self]
        have hsleep : ∀ a, sleepAfter (.status c) backoff a = backoff ^ a := by
          intro a
          simp only [sleepAfter]
          rw [if_neg hr]
        rw [hres, herr]
        simp only [hsleep]

/-- C3 counterexample: with every response a 404 status (non-2xx and not
retryable) and the primary bucket's default of 4 attempts, `safe_get` issues
all 4 attempts instead of failing immediately after the first. -/
theorem c3_counterexample :
    (safe_get (fun _ => .status 404) 4 (3/2)).attempts = 4 ∧ (4 : Nat) ≠ 1 := by
  constructor
  · show (safe_get_loop (fun _ => .status 404) (3/2) 0 4 .unknownError).attempts = 4
    rw [safe_get_loop_const (.status 404) (3/2) (by decide) 4 0 .unknownError]
  · decide

/-- C3 (amended): on a non-200, non-retryable status the helper records the
status error, sleeps plain `backoff ** attempt` (no jitter) and proceeds to
the next attempt, raising the recorded status error only after all attempts
are exhausted; connection errors likewise retry with plain backoff; the
`+0.5` jitter is applied only before retries of the retryable statuses
{429, 502, 503, 504}. -/
theorem c3_amended_theorem (s : Nat) (retries : Nat) (backoff : ℚ)
    (h200 : s ≠ 200) (hnr : retryableStatus s = false) :
    safe_get (fun _ => .status s) retries backoff =
      ⟨if retries = 0 then .unknownError else .httpError s, retries,
        (List.range retries).map (fun a => backoff ^ a)⟩ ∧
    safe_get (fun _ => .connError) retries backoff =
      ⟨if retries = 0 then .unknownError else .connFailure, retries,
        (List.range retries).map (fun a => backoff ^ a)⟩ ∧
    safe_get (fun _ => .status 429) retries backoff =
      ⟨.unknownError, retries, (List.range retries).map (fun a => backoff ^ a + 1/2)⟩ := by
  refine ⟨?_, ?_, ?_⟩
  · unfold safe_get
    rw [safe_get_loop_const (.status s) backoff (fun h => h200 (by injection h)) retries 0]
    simp [errAfter, sleepAfter, hnr]
  · unfold safe_get
    rw [safe_get_loop_const .connError backoff (by simp) retries 0]
    simp [errAfter, sleepAfter]
  · unfold safe_get
    rw [safe_get_loop_const (.status 429) backoff (by decide) retries 0]
    simp [errAfter, sleepAfter, retryableStatus]

/-- C3 witness: the amended theorem applied at status 404, 4 attempts,
backoff 1.5. -/
theorem c3_witness :
    (404 : Nat) ≠ 200 ∧ retryableStatus 404 = false ∧
    safe_get (fun _ => .status 404) 4 (3/2) =
      ⟨.httpError 404, 4, (List.range 4).map (fun a => (3/2 : ℚ) ^ a)⟩ := by
  refine ⟨by decide, by decide, ?_⟩
  have h := (c3_amended_theorem 404 4 (3/2) (by decide) (by decide)).1
  simpa using h

/-! ## C2 and C4: resolver caching behaviour -/

/-- A secondary reference whose DOI has no match in the primary catalog. -/
def c2ref : S2Ref :=
  { paperId := some "abc123"
    title := some "An Interesting Theory Of Everything Paper"
    year := some 1999
    doi := some "10.1/xyz"
    arxiv := none
    corpusId := none }

/-- Catalog responses held fixed: every lookup returns zero results. -/
def c2api : OAQueryApi :=
  { byDoiFilter := fun _ => some []
    searchWorks := fun _ => some [] }

/-- C2: resolving `c2ref` cold issues one DOI lookup, caches an explicit
null mapping, and returns null; resolving it again with that warm cache
returns the same null result but issues one further network lookup — the
cached null mapping is not returned from the cache, because `dict.get`
conflates a stored `None` with a missing key. -/
theorem c2_cache_requery :
    (map_s2_ref_to_openalex c2api c2ref ([] : MapCache)).result = none ∧
    (map_s2_ref_to_openalex c2api c2ref ([] : MapCache)).calls = 1 ∧
    (map_s2_ref_to_openalex c2api c2ref ([] : MapCache)).cache = [("DOI:10.1/xyz", none)] ∧
    (map_s2_ref_to_openalex c2api c2ref
        ((map_s2_ref_to_openalex c2api c2ref ([] : MapCache)).cache)).result = none ∧
    (map_s2_ref_to_openalex c2api c2ref
        ((map_s2_ref_to_openalex c2api c2ref ([] : MapCache)).cache)).calls = 1 := by
  decide

/-- A secondary reference with a DOI that has zero catalog results and a
perfectly informative title that the catalog can resolve. -/
def c4ref : S2Ref :=
  { paperId := none
    title := some "A Genuinely Descriptive Research Paper Title"
    year := none
    doi := some "10.1/abc"
    arxiv := none
    corpusId := none }

def c4api : OAQueryApi :=
  { byDoiFilter := fun _ => some []
    searchWorks := fun _ => some ["https://openalex.org/W7"] }

/-- C4 counterexample: when the DOI tier returns zero results the resolver
returns null after exactly one lookup; it does not continue to the title
tier, even though the title is informative and the title search would have
returned a work (`W7`). -/
theorem c4_counterexample :
    (map_s2_ref_to_openalex c4api c4ref ([] : MapCache)).result = none ∧
    (map_s2_ref_to_openalex c4api c4ref ([] : MapCache)).calls = 1 ∧
    is_low_info_title c4ref.title = false ∧
    c4api.searchWorks (pyStrOrEmpty c4ref.title) = some ["https://openalex.org/W7"] ∧
    lastSegSlash "https://openalex.org/W7" = "W7" ∧
    (map_s2_ref_to_openalex c4api c4ref ([] : MapCache)).result ≠ some "W7" := by
  decide

/-- C4 (amended): whenever a tier's catalog lookup returns zero results,
the resolver caches an explicit null mapping under that tier's composite
key and terminates resolution with null after that single lookup — proved
for the DOI tier, the arXiv tier and the title tier; resolution moves on to
a later tier only when an earlier tier's identifier is absent (the guards
of the later conjuncts) or, for the secondary-ID cache tier, on a cache
miss — never after an empty lookup result; and when no network tier
applies, the resolver returns null with zero lookups, caching a null
mapping under the secondary-ID key when one exists. -/
theorem c4_amended_theorem :
    (∀ (api : OAQueryApi) (ref : S2Ref) (cache : MapCache) (d : String),
      normalize_doi ref.doi = some d → d ≠ "" →
      map_cache_get cache ("DOI:" ++ d) = none →
      api.byDoiFilter d = some [] →
      map_s2_ref_to_openalex api ref cache =
        ⟨none, map_cache_set cache ("DOI:" ++ d) none, 1⟩) ∧
    (∀ (api : OAQueryApi) (ref : S2Ref) (cache : MapCache) (a : String),
      truthyS (normalize_doi ref.doi) = false →
      ref.arxiv = some a → a ≠ "" →
      map_cache_get cache ("ARXIV:" ++ a) = none →
      api.searchWorks a = some [] →
      map_s2_ref_to_openalex api ref cache =
        ⟨none, map_cache_set cache ("ARXIV:" ++ a) none, 1⟩) ∧
    (∀ (api : OAQueryApi) (ref : S2Ref) (cache : MapCache) (t : String),
      truthyS (normalize_doi ref.doi) = false →
      truthyS ref.arxiv = false →
      (if truthyS (pyOrStr ref.paperId ref.corpusId) then
          map_cache_get cache ("S2:" ++ pyStrOrEmpty (pyOrStr ref.paperId ref.corpusId))
        else none) = none →
      ref.title = some t → t ≠ "" →
      is_low_info_title (some t) = false →
      map_cache_get cache ("TITLE:" ++ takeStr (lowerStr (trimStr t)) 200) = none →
      api.searchWorks t = some [] →
      map_s2_ref_to_openalex api ref cache =
        ⟨none,
          if truthyS (pyOrStr ref.paperId ref.corpusId) then
            map_cache_set
              (map_cache_set cache ("TITLE:" ++ takeStr (lowerStr (trimStr t)) 200) none)
              ("S2:" ++ pyStrOrEmpty (pyOrStr ref.paperId ref.corpusId)) none
          else map_cache_set cache ("TITLE:" ++ takeStr (lowerStr (trimStr t)) 200) none,
          1⟩) ∧
    (∀ (api : OAQueryApi) (ref : S2Ref) (cache : MapCache),
      truthyS (normalize_doi ref.doi) = false →
      truthyS ref.arxiv = false →
      (if truthyS (pyOrStr ref.paperId ref.corpusId) then
          map_cache_get cache ("S2:" ++ pyStrOrEmpty (pyOrStr ref.paperId ref.corpusId))
        else none) = none →
      (truthyS ref.title && !(is_low_info_title ref.title)) = false →
      map_s2_ref_to_openalex api ref cache =
        ⟨none,
          if truthyS (pyOrStr ref.paperId ref.corpusId) then
            map_cache_set cache ("S2:" ++ pyStrOrEmpty (pyOrStr ref.paperId ref.corpusId)) none
          else cache,
          0⟩) := by
  refine ⟨?_, ?_, ?_, ?_⟩
  · intro api ref cache d h1 h2 h3 h4
    have ht1 : truthyS (some d) = true := by simp [truthyS, h2]
    simp [map_s2_ref_to_openalex, h1, ht1, pyStrOrEmpty, h3, h4]
  · intro api ref cache a h1 h2 h3 h4 h5
    have ht2 : truthyS (some a) = true := by simp [truthyS, h3]
    simp [map_s2_ref_to_openalex, h1, h2, ht2, pyStrOrEmpty, h4, h5]
  · intro api ref cache t h1 h2 hs2 h4 h5 h6 h7 h8
    have htt : truthyS (some t) = true := by simp [truthyS, h5]
    by_cases hts : truthyS (pyOrStr ref.paperId ref.corpusId) = true
    · rw [if_pos hts] at hs2
      simp only [pyStrOrEmpty] at hs2
      simp [map_s2_ref_to_openalex, h1, h2, hts, hs2, h4, htt, h6, pyStrOrEmpty, h7, h8]
    · have hts2 : truthyS (pyOrStr ref.paperId ref.corpusId) = false :=
        Bool.eq_false_iff.mpr hts
      simp [map_s2_ref_to_openalex, h1, h2, hts2, h4, htt, h6, pyStrOrEmpty, h7, h8]
  · intro api ref cache h1 h2 hs2 hcond
    by_cases hts : truthyS (pyOrStr ref.paperId ref.corpusId) = true
    · rw [if_pos hts] at hs2
      simp only [pyStrOrEmpty] at hs2
      simp [map_s2_ref_to_openalex, h1, h2, hts, hs2, hcond, pyStrOrEmpty]
    · have hts2 : truthyS (pyOrStr ref.paperId ref.corpusId) = false :=
        Bool.eq_false_iff.mpr hts
      simp [map_s2_ref_to_openalex, h1, h2, hts2, hcond, pyStrOrEmpty]

/-- Catalog responses for the C4 witness: every lookup returns zero
results. -/
def c4zeroApi : OAQueryApi :=
  { byDoiFilter := fun _ => some []
    searchWorks := fun _ => some [] }

/-- A reference whose only identifier is an arXiv id. -/
def c4arxRef : S2Ref :=
  { paperId := none
    title := none
    year := none
    doi := none
    arxiv := some "hep-th/9711200"
    corpusId := none }

/-- A reference with only a secondary id and an informative title. -/
def c4titleRef : S2Ref :=
  { paperId := some "pid9"
    title := some "A Genuinely Descriptive Research Paper Title"
    year := none
    doi := none
    arxiv := none
    corpusId := none }

/-- A reference with no DOI, no arXiv id, no secondary id and a
low-information two-word title: no resolver tier applies to it. -/
def c4noTierRef : S2Ref :=
  { paperId := none
    title := some "Spin chains"
    year := none
    doi := none
    arxiv := none
    corpusId := none }

/-- C4 witness: all four conjuncts of the amended theorem applied at
concrete inputs with a cold cache — the DOI tier on `c4ref`, the arXiv tier
on `c4arxRef`, the title tier on `c4titleRef` (which also caches the
secondary-ID null), and the no-applicable-tier case on `c4noTierRef`. -/
theorem c4_witness :
    normalize_doi c4ref.doi = some "10.1/abc" ∧
    map_s2_ref_to_openalex c4api c4ref ([] : MapCache) =
      ⟨none, [("DOI:10.1/abc", none)], 1⟩ ∧
    map_s2_ref_to_openalex c4zeroApi c4arxRef ([] : MapCache) =
      ⟨none, [("ARXIV:hep-th/9711200", none)], 1⟩ ∧
    map_s2_ref_to_openalex c4zeroApi c4titleRef ([] : MapCache) =
      ⟨none, [("TITLE:a genuinely descriptive research paper title", none),
        ("S2:pid9", none)], 1⟩ ∧
    map_s2_ref_to_openalex c4zeroApi c4noTierRef ([] : MapCache) =
      ⟨none, ([] : MapCache), 0⟩ := by
  refine ⟨by decide, ?_, ?_, ?_, ?_⟩
  · exact c4_amended_theorem.1 c4api c4ref ([] : MapCache) "10.1/abc" (by decide) (by decide)
      rfl rfl
  · exact c4_amended_theorem.2.1 c4zeroApi c4arxRef ([] : MapCache) "hep-th/9711200"
      (by decide) rfl (by decide) rfl rfl
  · exact c4_amended_theorem.2.2.1 c4zeroApi c4titleRef ([] : MapCache)
      "A Genuinely Descriptive Research Paper Title" (by decide) (by decide) (by decide)
      rfl (by decide) (by decide) rfl rfl
  · have h1 : truthyS (normalize_doi c4noTierRef.doi) = false := by decide
    have h2 : truthyS c4noTierRef.arxiv = false := by decide
    have h3 : (if truthyS (pyOrStr c4noTierRef.paperId c4noTierRef.corpusId) = true then
        map_cache_get ([] : MapCache)
          ("S2:" ++ pyStrOrEmpty (pyOrStr c4noTierRef.paperId c4noTierRef.corpusId))
      else none) = none := by decide
    have h4 : (truthyS c4noTierRef.title && !(is_low_info_title c4noTierRef.title)) = false := by
      decide
    exact c4_amended_theorem.2.2.2 c4zeroApi c4noTierRef ([] : MapCache) h1 h2 h3 h4

/-! ## The OpenAlex-only crawler `crawl_references_openalex`

State of the breadth-first crawl.  `nodes` is the keyed node map as an
insertion-ordered association list, `edges` the citer-to-cited edge list,
`seen` the expansion seen-set, `q` the FIFO frontier of `(key, depth)`
items, and `enq` a ghost log of every frontier item ever enqueued (the
seed included) — it mirrors each `q.append` and is never consumed. -/

structure OACrawlState where
  nodes : List (String × WorkNode)
  edges : List (String × String)
  seen : List String
  q : List (String × Nat)
  enq : List (String × Nat)
deriving DecidableEq

/-- Accumulator for one layer's reference processing (the `as_completed`
loop, sequentialised in submission order). -/
structure OALayerAcc where
  nodes : List (String × WorkNode)
  edges : List (String × String)
  toExpand : List String
deriving DecidableEq

/-- `[r.split("/")[-1] for r in refs if ...startswith("W")]`. -/
def oaChildIds (j : OAWork) : List String :=
  (j.referenced_works.map lastSegSlash).filter (fun s => pyStartsWith s "W")

/-- Processing of one fetched child inside a layer.  `seen0` is the seen-set
at layer start: the Python loop reads `seen` but only updates it after the
layer.  A failed fetch (`catalog cid = none`) is logged and skipped. -/
def oaProcessChild (catalog : String → Option OAWork) (minc : Int) (prune strict : Bool)
    (cur : String) (seen0 : List String) (acc : OALayerAcc) (cid : String) : OALayerAcc :=
  match catalog cid with
  | none => acc
  | some cjson =>
    let keep := passes_threshold_from_oa_json cjson minc strict
    if !keep && prune then acc
    else
      { nodes :=
          if cid ∈ acc.nodes.map Prod.fst then acc.nodes
          else acc.nodes ++ [(cid, WorkNode.from_openalex_json cjson "openalex")]
        edges := acc.edges ++ [(cur, cid)]
        toExpand :=
          if keep ∧ cid ∉ seen0 then acc.toExpand ++ [cid] else acc.toExpand }

/-- The `while q:` loop, fuel-indexed.  A failed fetch of the frontier
node's own record is uncaught in the source and aborts the crawl (`none`).
After a layer, the collected `to_expand` keys are added to `seen` and
enqueued at depth `d + 1`. -/
def oaCrawlLoop (catalog : String → Option OAWork) (minc : Int) (prune strict : Bool)
    (depth : Nat) : Nat → OACrawlState → Option OACrawlState
  | 0, st => some st
  | fuel + 1, st =>
    match st.q with
    | [] => some st
    | (cur, d) :: rest =>
      if d ≥ depth then oaCrawlLoop catalog minc prune strict depth fuel { st with q := rest }
      else
        match catalog cur with
        | none => none
        | some curData =>
          let childIds := oaChildIds curData
          if childIds = [] then
            oaCrawlLoop catalog minc prune strict depth fuel { st with q := rest }
          else
            let acc := childIds.foldl (oaProcessChild catalog minc prune strict cur st.seen)
              ⟨st.nodes, st.edges, []⟩
            oaCrawlLoop catalog minc prune strict depth fuel
              { nodes := acc.nodes
                edges := acc.edges
                seen := st.seen ++ acc.toExpand
                q := rest ++ acc.toExpand.map (fun c => (c, d + 1))
                enq := st.enq ++ acc.toExpand.map (fun c => (c, d + 1)) }

/-- `crawl_references_openalex` over a fixed catalog (`none` = fetch
failure; the raw-record JSON cache over a fixed catalog is observationally
the catalog). -/
def crawl_references_openalex (catalog : String → Option OAWork) (seed_id : String)
    (depth : Nat) (min_citations : Int) (prune_below strict_threshold : Bool)
    (fuel : Nat) : Option OACrawlState :=
  match catalog seed_id with
  | none => none
  | some d0 =>
    oaCrawlLoop catalog min_citations prune_below strict_threshold depth fuel
      { nodes := [(seed_id, WorkNode.from_openalex_json d0 "openalex")]
        edges := []
        seen := [seed_id]
        q := [(seed_id, 0)]
        enq := [(seed_id, 0)] }

/-! ## C1, C5, C8: crawl scenarios -/

/-- A catalog work record for the scenario fixtures. -/
def scenarioWork (idUrl : String) (count : Option Int) (refs : List String) : OAWork :=
  { id := some idUrl
    doi := none
    title := some "Some Paper"
    publication_year := some 2020
    host_venue_display_name := none
    type := none
    authorships := []
    cited_by_count := count
    is_retracted := some false
    referenced_works := refs }

/-- The spec's scenario: the seed `W1` has three outgoing references with
citation counts 50 (`W2`), 2 (`W3`) and unknown (`W4`). -/
def scenarioCatalog : String → Option OAWork := fun k =>
  if k = "W1" then
    some (scenarioWork "https://openalex.org/W1" (some 100)
      ["https://openalex.org/W2", "https://openalex.org/W3", "https://openalex.org/W4"])
  else if k = "W2" then some (scenarioWork "https://openalex.org/W2" (some 50) [])
  else if k = "W3" then some (scenarioWork "https://openalex.org/W3" (some 2) [])
  else if k = "W4" then some (scenarioWork "https://openalex.org/W4" none [])
  else none

/-- C1 counterexample: in the scenario (min_citations 10, strict off, prune
off, depth 1) the depth-1 frontier enqueued is `[W2, W4]`, not `[W2]`: the
unknown-count reference passes the threshold when strict mode is off and is
enqueued for expansion as well. -/
theorem c1_counterexample :
    (crawl_references_openalex scenarioCatalog "W1" 1 10 false false 10).map
        (fun st => (st.enq.filter (fun e => e.2 == 1)).map Prod.fst) = some ["W2", "W4"] ∧
    (["W2", "W4"] : List String) ≠ ["W2"] := by
  decide

/-- C1 (amended): the scenario graph has 4 nodes (`W1`, `W2`, `W3`, `W4`)
and 3 edges, and the frontier enqueued for the next layer holds the
count-50 reference `W2` and the unknown-count reference `W4` (which passes
because strict mode is off); only the count-2 reference `W3` is kept as a
terminal leaf without being enqueued. -/
theorem c1_amended_theorem :
    (crawl_references_openalex scenarioCatalog "W1" 1 10 false false 10).map
        (fun st => (st.nodes.map Prod.fst, st.edges, st.enq)) =
      some (["W1", "W2", "W3", "W4"],
        [("W1", "W2"), ("W1", "W3"), ("W1", "W4")],
        [("W1", 0), ("W2", 1), ("W4", 1)]) := by
  decide

/-- C5 counterexample: with pruning on, the scenario graph has 3 nodes, not
2 — the unknown-count reference `W4` passes the threshold (strict off) and
is kept despite pruning. -/
theorem c5_counterexample :
    (crawl_references_openalex scenarioCatalog "W1" 1 10 true false 10).map
        (fun st => st.nodes.length) = some 3 ∧
    (3 : Nat) ≠ 2 := by
  decide

/-- C5 (amended): with `prune_below_threshold = true` the scenario graph has
3 nodes (`W1`, `W2` and the unknown-count `W4`) and 2 edges; only the
count-2 reference `W3` is pruned, since an unknown count passes the
threshold when strict mode is off. -/
theorem c5_amended_theorem :
    (crawl_references_openalex scenarioCatalog "W1" 1 10 true false 10).map
        (fun st => (st.nodes.map Prod.fst, st.edges)) =
      some (["W1", "W2", "W4"], [("W1", "W2"), ("W1", "W4")]) := by
  decide

/-- A seed whose reference list contains the same reference id twice. -/
def dupCatalog : String → Option OAWork := fun k =>
  if k = "W1" then
    some (scenarioWork "https://openalex.org/W1" (some 100)
      ["https://openalex.org/W2", "https://openalex.org/W2"])
  else if k = "W2" then some (scenarioWork "https://openalex.org/W2" (some 50) [])
  else none

/-- C8 counterexample: in the primary-only crawler the seen-set is updated
only after a layer finishes, so a record listing the same passing reference
twice enqueues that key twice — the enqueued frontier keys are
`[W1, W2, W2]`, which has a duplicate. -/
theorem c8_counterexample :
    (crawl_references_openalex dupCatalog "W1" 1 0 false false 10).map
        (fun st => st.enq.map Prod.fst) = some ["W1", "W2", "W2"] ∧
    ¬ (["W1", "W2", "W2"] : List String).Nodup := by
  decide

/-! ## The secondary-mediated crawler `crawl_references_via_s2` -/

/-- The tuple a worker returns for one secondary reference (the trailing
per-task timing is instrumentation and is not modelled). -/
structure S2WorkerRes where
  target_key : Option String
  oa_json : Option OAWork
  next_s2 : Option String
  mapped_to_oa : Bool
  keep : Bool
  expand : Bool
  s2_title : Option String
  s2_year : Option Int
deriving DecidableEq

/-- The `worker` closure: resolve the reference to a primary id (threading
the mapping cache), fetch the primary record when mapped, apply the
threshold, and otherwise fall to the unmapped path (drop under strict mode
or when `keep_unmapped` is off, else build a synthetic key from the
secondary id or, failing that, the 80-character-truncated title). -/
def s2Worker (api : OAQueryApi) (oaCatalog : String → Option OAWork) (minc : Int)
    (prune strict keep_unmapped : Bool) (ref : S2Ref) (cache : MapCache) :
    S2WorkerRes × MapCache :=
  let title80 := takeStr (pyStrOrEmpty ref.title) 80
  let m := map_s2_ref_to_openalex api ref cache
  let cited_s2 := pyOrStr ref.paperId ref.corpusId
  let unmapped : S2WorkerRes :=
    if strict then ⟨none, none, none, false, false, false, none, none⟩
    else if !keep_unmapped then ⟨none, none, none, false, false, false, none, none⟩
    else
      let synth_key :=
        if truthyS cited_s2 then "S2:" ++ pyStrOrEmpty cited_s2
        else "S2-TITLE:" ++ title80
      ⟨some synth_key, none, cited_s2, false, true, true, ref.title, ref.year⟩
  if truthyS m.result then
    match oaCatalog (pyStrOrEmpty m.result) with
    | some cjson =>
      let keep := passes_threshold_from_oa_json cjson minc strict
      if !keep && prune then (⟨none, none, none, true, false, false, none, none⟩, m.cache)
      else (⟨m.result, some cjson, cited_s2, true, true, keep, none, none⟩, m.cache)
    | none => (unmapped, m.cache)
  else (unmapped, m.cache)

/-- State of the secondary-mediated crawl; frontier items are
`(key, upstream secondary id or "", depth)`; `enq` is the ghost log of
every enqueued frontier item. -/
structure S2CrawlState where
  nodes : List (String × WorkNode)
  edges : List (String × String)
  seen_keys : List String
  q : List (String × String × Nat)
  enq : List (String × String × Nat)
  mapCache : MapCache
deriving DecidableEq

/-- The sequential result-processing loop body (runs after the worker pool
of a layer completes): upsert the node by key (first writer wins), append
the edge, and enqueue when the item expands and its key is unseen — here
the seen-set is checked and updated inline. -/
def s2ProcessResult (cur_key : String) (d : Nat) (st : S2CrawlState) (r : S2WorkerRes) :
    S2CrawlState :=
  if !r.keep then st
  else
    let nodes :=
      if r.mapped_to_oa ∧ r.oa_json.isSome then
        match r.target_key, r.oa_json with
        | some tk, some oaj =>
          if tk ∈ st.nodes.map Prod.fst then st.nodes
          else st.nodes ++
            [(tk, { WorkNode.from_openalex_json oaj "mixed" with s2_paper_id := r.next_s2 })]
        | _, _ => st.nodes
      else
        match r.target_key with
        | some tk =>
          if tk ∈ st.nodes.map Prod.fst then st.nodes
          else st.nodes ++
            [(tk, { openalex_id := none, doi := none, title := r.s2_title,
                    publication_year := r.s2_year, host_venue := none, type := none,
                    authors := none, cited_by_count := none, is_retracted := none,
                    source := some "s2", s2_paper_id := r.next_s2 })]
        | none => st.nodes
    match r.target_key with
    | none => { st with nodes := nodes }
    | some tk =>
      let edges := st.edges ++ [(cur_key, tk)]
      if r.expand ∧ tk ∉ st.seen_keys then
        { st with
          nodes := nodes
          edges := edges
          seen_keys := st.seen_keys ++ [tk]
          q := st.q ++ [(tk, pyStrOrEmpty r.next_s2, d + 1)]
          enq := st.enq ++ [(tk, pyStrOrEmpty r.next_s2, d + 1)] }
      else { st with nodes := nodes, edges := edges }

/-- `s2_fetch_refs` (`none` from `s2api` models a raised exception, caught
at the call site). -/
def s2_fetch_refs (s2api : String → Option (List S2Ref)) (paper_id : String) :
    Option (List S2Ref) :=
  if paper_id = "" then some [] else s2api paper_id

/-- Run the layer's workers in submission order, threading the shared
mapping cache. -/
def s2RunWorkers (api : OAQueryApi) (oaCatalog : String → Option OAWork) (minc : Int)
    (prune strict keep_unmapped : Bool) :
    List S2Ref → MapCache → List S2WorkerRes × MapCache
  | [], cache => ([], cache)
  | ref :: rest, cache =>
    let rc := s2Worker api oaCatalog minc prune strict keep_unmapped ref cache
    let rs := s2RunWorkers api oaCatalog minc prune strict keep_unmapped rest rc.2
    (rc.1 :: rs.1, rs.2)

/-- The `while q:` loop of the secondary-mediated crawler, fuel-indexed.  A
failure fetching the frontier node's own references degrades that node to
zero references. -/
def s2CrawlLoop (api : OAQueryApi) (oaCatalog : String → Option OAWork)
    (s2api : String → Option (List S2Ref)) (minc : Int)
    (prune strict keep_unmapped : Bool) (depth : Nat) :
    Nat → S2CrawlState → S2CrawlState
  | 0, st => st
  | fuel + 1, st =>
    match st.q with
    | [] => st
    | (cur_key, cur_s2, d) :: rest =>
      if d ≥ depth then
        s2CrawlLoop api oaCatalog s2api minc prune strict keep_unmapped depth fuel
          { st with q := rest }
      else
        let s2_refs := (s2_fetch_refs s2api cur_s2).getD []
        let rw := s2RunWorkers api oaCatalog minc prune strict keep_unmapped s2_refs st.mapCache
        s2CrawlLoop api oaCatalog s2api minc prune strict keep_unmapped depth fuel
          (rw.1.foldl (s2ProcessResult cur_key d) { st with q := rest, mapCache := rw.2 })

/-- `crawl_references_via_s2`; the uncaught seed fetch failure aborts the
crawl (`none`). -/
def crawl_references_via_s2 (api : OAQueryApi) (oaCatalog : String → Option OAWork)
    (s2api : String → Option (List S2Ref)) (seed_oa_id seed_s2_id : String)
    (depth : Nat) (keep_unmapped : Bool) (min_citations : Int)
    (prune_below strict_threshold : Bool) (map_cache : MapCache) (fuel : Nat) :
    Option S2CrawlState :=
  match oaCatalog seed_oa_id with
  | none => none
  | some seed_json =>
    some (s2CrawlLoop api oaCatalog s2api min_citations prune_below strict_threshold
      keep_unmapped depth fuel
      { nodes := [(seed_oa_id,
          { WorkNode.from_openalex_json seed_json "mixed" with s2_paper_id := some seed_s2_id })]
        edges := []
        seen_keys := [seed_oa_id]
        q := [(seed_oa_id, seed_s2_id, 0)]
        enq := [(seed_oa_id, seed_s2_id, 0)]
        mapCache := map_cache })

/-! ## C6: unmapped reference with no secondary id -/

/-- A reference with no DOI, no arXiv id, no secondary-catalog id (neither
`paperId` nor `CorpusId`) and a low-information two-word title. -/
def c6ref : S2Ref :=
  { paperId := none
    title := some "Spin chains"
    year := some 2001
    doi := none
    arxiv := none
    corpusId := none }

def c6s2api : String → Option (List S2Ref) := fun k =>
  if k = "S1" then some [c6ref] else some []

def c6oaCatalog : String → Option OAWork := fun k =>
  if k = "W1" then some (scenarioWork "https://openalex.org/W1" (some 100) []) else none

def c6api : OAQueryApi :=
  { byDoiFilter := fun _ => some []
    searchWorks := fun _ => some [] }

/-- C6 counterexample: with `keep_unmapped = true` and strict mode off, the
reference with no DOI, no preprint id, a low-information title and no
secondary id is not dropped: it produces a synthetic node keyed by the
truncated title (`S2-TITLE:Spin chains`) and an edge from the citer. -/
theorem c6_counterexample :
    (crawl_references_via_s2 c6api c6oaCatalog c6s2api "W1" "S1" 1 true 0 false false
        ([] : MapCache) 10).map (fun st => (st.nodes.map Prod.fst, st.edges)) =
      some (["W1", "S2-TITLE:Spin chains"], [("W1", "S2-TITLE:Spin chains")]) ∧
    (["W1", "S2-TITLE:Spin chains"] : List String) ≠ ["W1"] := by
  decide

/-- C6 (amended): in the secondary-mediated strategy with
`keep_unmapped = true` and strict mode off, a reference with no DOI, no
preprint id, a low-information title and no secondary-catalog id produces a
synthetic node keyed `S2-TITLE:<first 80 title characters>` carrying the
reference's title and year, together with an edge from the citer, and the
synthetic key is enqueued for expansion at the next depth. -/
theorem c6_amended_theorem :
    is_low_info_title c6ref.title = true ∧
    (crawl_references_via_s2 c6api c6oaCatalog c6s2api "W1" "S1" 1 true 0 false false
        ([] : MapCache) 10).map
      (fun st =>
        (alook st.nodes "S2-TITLE:Spin chains", st.edges.length,
          (st.enq.filter (fun e => e.2.2 == 1)).map (fun e => e.1))) =
      some (some ⟨none, none, some "Spin chains", some 2001, none, none, none, none, none,
        some "s2", none⟩, 1, ["S2-TITLE:Spin chains"]) := by
  constructor
  · decide
  · decide

/-! ## C8: frontier enqueue uniqueness -/

/-- Whether one child of the current layer is appended to `to_expand`: its
fetch succeeded, it passes the threshold, and its key is not in the
seen-set as of layer start. -/
def oaExpands (catalog : String → Option OAWork) (minc : Int) (strict : Bool)
    (seen0 : List String) (cid : String) : Bool :=
  match catalog cid with
  | none => false
  | some cjson => passes_threshold_from_oa_json cjson minc strict && decide (cid ∉ seen0)

theorem oaExpands_not_mem (catalog : String → Option OAWork) (minc : Int) (strict : Bool)
    (seen0 : List String) (cid : String)
    (h : oaExpands catalog minc strict seen0 cid = true) : cid ∉ seen0 := by
  unfold oaExpands at h
  cases hc : catalog cid with
  | none => rw [hc] at h; exact absurd h (by simp)
  | some j =>
    rw [hc] at h
    exact of_decide_eq_true (Bool.and_elim_right h)

/-- One processed child extends `to_expand` by `[cid]` exactly when
`oaExpands` holds; the expansion decision does not depend on the
accumulated nodes or edges. -/
theorem oaProcessChild_toExpand (catalog : String → Option OAWork) (minc : Int)
    (prune strict : Bool) (cur : String) (seen0 : List String) (acc : OALayerAcc)
    (cid : String) :
    (oaProcessChild catalog minc prune strict cur seen0 acc cid).toExpand =
      acc.toExpand ++ (if oaExpands catalog minc strict seen0 cid then [cid] else []) := by
  unfold oaProcessChild oaExpands
  cases hc : catalog cid with
  | none => simp
  | some cjson =>
    by_cases hk : passes_threshold_from_oa_json cjson minc strict = true
    · simp only [hk]
      by_cases hs : cid ∈ seen0
      · simp [hs]
      · simp [hs]
    · have hk' : passes_threshold_from_oa_json cjson minc strict = false :=
        Bool.eq_false_iff.mpr hk
      simp only [hk']
      by_cases hp : prune = true
      · simp [hp]
      · simp [hp, Bool.eq_false_iff.mpr hp]

/-- Folding a layer's children: `to_expand` is exactly the filter of the
children by the expansion predicate. -/
theorem oaFold_toExpand (catalog : String → Option OAWork) (minc : Int)
    (prune strict : Bool) (cur : String) (seen0 : List String) :
    ∀ (l : List String) (acc : OALayerAcc),
      (l.foldl (oaProcessChild catalog minc prune strict cur seen0) acc).toExpand =
        acc.toExpand ++ l.filter (oaExpands catalog minc strict seen0) := by
  intro l
  induction l with
  | nil => intro acc; simp
  | cons x xs ih =>
    intro acc
    rw [List.foldl_cons, ih, oaProcessChild_toExpand, List.filter_cons]
    by_cases hx : oaExpands catalog minc strict seen0 x = true
    · simp [hx]
    · simp [hx]

/-- The enqueue-uniqueness invariant of the primary-only crawl: the ghost
log of enqueued frontier keys has no duplicate, and every enqueued key is
in the seen-set. -/
def oaEnqInv (st : OACrawlState) : Prop :=
  (st.enq.map Prod.fst).Nodup ∧ ∀ k ∈ st.enq.map Prod.fst, k ∈ st.seen

/-- One layer of the primary-only crawl preserves the invariant, provided
the current record's filtered child list has no duplicates. -/
theorem oaLayerState_inv (catalog : String → Option OAWork) (minc : Int)
    (prune strict : Bool) (cur : String) (d : Nat) (st : OACrawlState)
    (curData : OAWork) (hnd : (oaChildIds curData).Nodup) (hinv : oaEnqInv st)
    (rest : List (String × Nat)) :
    oaEnqInv
      (let acc := (oaChildIds curData).foldl
          (oaProcessChild catalog minc prune strict cur st.seen) ⟨st.nodes, st.edges, []⟩
       { nodes := acc.nodes
         edges := acc.edges
         seen := st.seen ++ acc.toExpand
         q := rest ++ acc.toExpand.map (fun c => (c, d + 1))
         enq := st.enq ++ acc.toExpand.map (fun c => (c, d + 1)) }) := by
  have hte := oaFold_toExpand catalog minc prune strict cur st.seen (oaChildIds curData)
    ⟨st.nodes, st.edges, []⟩
  simp only [List.nil_append] at hte
  dsimp only
  rw [hte]
  constructor
  · show ((st.enq ++
        ((oaChildIds curData).filter (oaExpands catalog minc strict st.seen)).map
          (fun c => (c, d + 1))).map Prod.fst).Nodup
    rw [List.map_append, List.map_map]
    have hid : (Prod.fst ∘ fun c : String => (c, d + 1)) = id := rfl
    rw [hid, List.map_id]
    refine List.Nodup.append hinv.1 (hnd.filter _) ?_
    intro a ha hb
    have h1 : a ∈ st.seen := hinv.2 a ha
    have h2 : oaExpands catalog minc strict st.seen a = true := List.of_mem_filter hb
    exact (oaExpands_not_mem catalog minc strict st.seen a h2) h1
  · intro k hk
    rw [List.map_append, List.map_map] at hk
    have hid : (Prod.fst ∘ fun c : String => (c, d + 1)) = id := rfl
    rw [hid, List.map_id] at hk
    rcases List.mem_append.mp hk with h1 | h2
    · exact List.mem_append_left _ (hinv.2 k h1)
    · exact List.mem_append_right _ h2

/-- The primary-only crawl loop preserves the invariant (given the
no-duplicate-children hypothesis on the catalog). -/
theorem oaCrawlLoop_inv (catalog : String → Option OAWork) (minc : Int)
    (prune strict : Bool) (depth : Nat)
    (hcat : ∀ w j, catalog w = some j → (oaChildIds j).Nodup) :
    ∀ (fuel : Nat) (st : OACrawlState), oaEnqInv st →
      ∀ st', oaCrawlLoop catalog minc prune strict depth fuel st = some st' →
        oaEnqInv st' := by
  intro fuel
  induction fuel with
  | zero =>
    intro st hinv st' h
    obtain rfl : st = st' := by injection h
    exact hinv
  | succ fuel ih =>
    intro st hinv st' h
    rw [oaCrawlLoop] at h
    cases hq : st.q with
    | nil =>
      rw [hq] at h
      obtain rfl : st = st' := by injection h
      exact hinv
    | cons hd rest =>
      obtain ⟨cur, d⟩ := hd
      rw [hq] at h
      dsimp only at h
      by_cases hdep : d ≥ depth
      · rw [if_pos hdep] at h
        exact ih { st with q := rest } hinv st' h
      · rw [if_neg hdep] at h
        cases hcur : catalog cur with
        | none =>
          rw [hcur] at h
          exact absurd h (by simp)
        | some curData =>
          rw [hcur] at h
          dsimp only at h
          by_cases hnil : oaChildIds curData = []
          · rw [if_pos hnil] at h
            exact ih { st with q := rest } hinv st' h
          · rw [if_neg hnil] at h
            exact ih _
              (oaLayerState_inv catalog minc prune strict cur d st curData
                (hcat cur curData hcur) hinv rest) st' h

/-- The enqueue-uniqueness invariant of the secondary-mediated crawl. -/
def s2EnqInv (st : S2CrawlState) : Prop :=
  (st.enq.map (fun e => e.1)).Nodup ∧ ∀ k ∈ st.enq.map (fun e => e.1), k ∈ st.seen_keys

/-- Processing one worker result preserves the invariant: here the seen-set
is checked and extended inline with the enqueue. -/
theorem s2ProcessResult_inv (cur_key : String) (d : Nat) (st : S2CrawlState)
    (r : S2WorkerRes) (h : s2EnqInv st) :
    s2EnqInv (s2ProcessResult cur_key d st r) := by
  unfold s2ProcessResult
  by_cases hk : (!r.keep) = true
  · rw [if_pos hk]
    exact h
  · rw [if_neg hk]
    cases ht : r.target_key with
    | none =>
      dsimp only
      exact h
    | some tk =>
      dsimp only
      by_cases he : r.expand = true ∧ tk ∉ st.seen_keys
      · rw [if_pos he]
        obtain ⟨hex, hns⟩ := he
        constructor
        · show ((st.enq ++ [(tk, pyStrOrEmpty r.next_s2, d + 1)]).map (fun e => e.1)).Nodup
          rw [List.map_append]
          refine List.Nodup.append h.1 (by simp) ?_
          intro a ha hb
          simp only [List.map_cons, List.map_nil, List.mem_singleton] at hb
          subst hb
          exact hns (h.2 _ ha)
        · intro k hk2
          rw [List.map_append] at hk2
          rcases List.mem_append.mp hk2 with h1 | h2
          · exact List.mem_append_left _ (h.2 k h1)
          · simp only [List.map_cons, List.map_nil, List.mem_singleton] at h2
            subst h2
            exact List.mem_append_right _ (by simp)
      · rw [if_neg he]
        exact h

/-- The sequential result-processing fold preserves the invariant. -/
theorem s2Fold_inv (cur_key : String) (d : Nat) :
    ∀ (rs : List S2WorkerRes) (st : S2CrawlState), s2EnqInv st →
      s2EnqInv (rs.foldl (s2ProcessResult cur_key d) st) := by
  intro rs
  induction rs with
  | nil => intro st h; exact h
  | cons r rest ih =>
    intro st h
    exact ih _ (s2ProcessResult_inv cur_key d st r h)

/-- The secondary-mediated crawl loop preserves the invariant,
unconditionally. -/
theorem s2CrawlLoop_inv (api : OAQueryApi) (oaCatalog : String → Option OAWork)
    (s2api : String → Option (List S2Ref)) (minc : Int)
    (prune strict keep_unmapped : Bool) (depth : Nat) :
    ∀ (fuel : Nat) (st : S2CrawlState), s2EnqInv st →
      s2EnqInv (s2CrawlLoop api oaCatalog s2api minc prune strict keep_unmapped depth
        fuel st) := by
  intro fuel
  induction fuel with
  | zero => intro st h; exact h
  | succ fuel ih =>
    intro st h
    rw [s2CrawlLoop]
    cases hq : st.q with
    | nil =>
      exact h
    | cons hd rest =>
      obtain ⟨cur_key, cur_s2, d⟩ := hd
      dsimp only
      by_cases hdep : d ≥ depth
      · rw [if_pos hdep]
        exact ih { st with q := rest } h
      · rw [if_neg hdep]
        exact ih _ (s2Fold_inv cur_key d _ { st with
          q := rest
          mapCache := (s2RunWorkers api oaCatalog minc prune strict keep_unmapped
            ((s2_fetch_refs s2api cur_s2).getD []) st.mapCache).2 } h)

/-- C8 (amended): in one run, the secondary-mediated crawler never enqueues
two frontier items with the same key (its seen-set is updated inline); the
primary-only crawler has the same guarantee whenever every fetched record's
filtered outgoing-reference list is free of duplicates — its seen-set is
only updated after a layer, so a record listing the same passing reference
id more than once enqueues that key once per occurrence. -/
theorem c8_amended_theorem :
    (∀ (catalog : String → Option OAWork) (minc : Int) (prune strict : Bool)
        (depth fuel : Nat) (seed : String) (st : OACrawlState),
      (∀ w j, catalog w = some j → (oaChildIds j).Nodup) →
      crawl_references_openalex catalog seed depth minc prune strict fuel = some st →
      (st.enq.map Prod.fst).Nodup) ∧
    (∀ (api : OAQueryApi) (oaCatalog : String → Option OAWork)
        (s2api : String → Option (List S2Ref)) (seed_oa seed_s2 : String)
        (depth : Nat) (keep_unmapped : Bool) (minc : Int) (prune strict : Bool)
        (mc : MapCache) (fuel : Nat) (st : S2CrawlState),
      crawl_references_via_s2 api oaCatalog s2api seed_oa seed_s2 depth keep_unmapped minc
          prune strict mc fuel = some st →
      (st.enq.map (fun e => e.1)).Nodup) := by
  constructor
  · intro catalog minc prune strict depth fuel seed st hcat h
    unfold crawl_references_openalex at h
    cases hseed : catalog seed with
    | none => rw [hseed] at h; exact absurd h (by simp)
    | some d0 =>
      rw [hseed] at h
      have hinit : oaEnqInv
          { nodes := [(seed, WorkNode.from_openalex_json d0 "openalex")]
            edges := []
            seen := [seed]
            q := [(seed, 0)]
            enq := [(seed, 0)] } := by
        constructor
        · simp
        · intro k hk
          simpa using hk
      exact (oaCrawlLoop_inv catalog minc prune strict depth hcat fuel _ hinit st h).1
  · intro api oaCatalog s2api seed_oa seed_s2 depth keep_unmapped minc prune strict mc fuel st h
    unfold crawl_references_via_s2 at h
    cases hseed : oaCatalog seed_oa with
    | none => rw [hseed] at h; exact absurd h (by simp)
    | some seed_json =>
      rw [hseed] at h
      have hst := Option.some.inj h
      subst hst
      have hinit : s2EnqInv
          { nodes := [(seed_oa,
              { WorkNode.from_openalex_json seed_json "mixed" with
                s2_paper_id := some seed_s2 })]
            edges := []
            seen_keys := [seed_oa]
            q := [(seed_oa, seed_s2, 0)]
            enq := [(seed_oa, seed_s2, 0)]
            mapCache := mc } := by
        constructor
        · simp
        · intro k hk
          simpa using hk
      exact (s2CrawlLoop_inv api oaCatalog s2api minc prune strict keep_unmapped depth
        fuel _ hinit).1

/-- The final state of a small primary-only crawl used to witness the
uniqueness theorem. -/
def c8wFinal : OACrawlState :=
  (crawl_references_openalex scenarioCatalog "W1" 1 10 false false 10).getD
    ⟨[], [], [], [], []⟩

/-- The final state of a small secondary-mediated crawl used to witness the
uniqueness theorem. -/
def c8wS2Final : S2CrawlState :=
  (crawl_references_via_s2 c6api c6oaCatalog c6s2api "W1" "S1" 1 true 0 false false
    ([] : MapCache) 10).getD ⟨[], [], [], [], [], []⟩

/-- C8 witness: both parts of the uniqueness theorem applied to concrete
crawls (the scenario catalog has duplicate-free reference lists). -/
theorem c8_witness :
    (∀ w j, scenarioCatalog w = some j → (oaChildIds j).Nodup) ∧
    crawl_references_openalex scenarioCatalog "W1" 1 10 false false 10 = some c8wFinal ∧
    (c8wFinal.enq.map Prod.fst).Nodup ∧
    crawl_references_via_s2 c6api c6oaCatalog c6s2api "W1" "S1" 1 true 0 false false
      ([] : MapCache) 10 = some c8wS2Final ∧
    (c8wS2Final.enq.map (fun e => e.1)).Nodup := by
  have hcat : ∀ w j, scenarioCatalog w = some j → (oaChildIds j).Nodup := by
    intro w j h
    unfold scenarioCatalog at h
    by_cases h1 : w = "W1"
    · rw [if_pos h1] at h
      injection h with h
      subst h
      decide
    · rw [if_neg h1] at h
      by_cases h2 : w = "W2"
      · rw [if_pos h2] at h
        injection h with h
        subst h
        decide
      · rw [if_neg h2] at h
        by_cases h3 : w = "W3"
        · rw [if_pos h3] at h
          injection h with h
          subst h
          decide
        · rw [if_neg h3] at h
          by_cases h4 : w = "W4"
          · rw [if_pos h4] at h
            injection h with h
            subst h
            decide
          · rw [if_neg h4] at h
            cases h
  refine ⟨hcat, by decide, ?_, by decide, ?_⟩
  · exact c8_amended_theorem.1 scenarioCatalog 10 false false 1 10 "W1" c8wFinal hcat
      (by decide)
  · exact c8_amended_theorem.2 c6api c6oaCatalog c6s2api "W1" "S1" 1 true 0 false false
      ([] : MapCache) 10 c8wS2Final (by decide)
